import Mathlib

/-!
Shallow embedding of the pinnochio-amm program
(src/programs/pinnochio-amm) and proofs about its specification.

Byte strings (`Pubkey`, seeds, payloads) are modelled as `List Nat`
with each byte reduced modulo 256 where it is read.  Machine integers
are `Nat` (u8/u16/u64) and `Int` (i64, decoded in two's complement).
Fallible program paths return `Except ProgramError`.

Program-derived addresses (`create_program_address`) are host
functionality outside the repository; they are modelled as an abstract
derivation function carried in an `Env` record, so every statement
about account validation is relative to an arbitrary (or, for
counterexamples, a concrete) derivation function.  The external
`constant_product_curve` crate is likewise not part of the repository;
its three operations are modelled from the spec (section 4.2) and are
marked as such in their doc comments.
-/

namespace Amm

/-- Byte strings and ledger addresses are plain byte lists. -/
abbrev Pubkey := List Nat

/-- Errors surfaced by the program, mirroring the `ProgramError`
variants actually used in the AMM sources. -/
inductive ProgramError where
  | NotEnoughAccountKeys
  | InvalidInstructionData
  | InvalidArgument
  | InvalidAccountData
  | InvalidAccountOwner
  deriving DecidableEq, Repr

/-- Errors of the modelled curve engine (external crate). -/
inductive CurveError where
  | ZeroBalance
  | SlippageLimitExceeded
  | Overflow
  deriving DecidableEq, Repr

/-- Decode a little-endian byte list as an unsigned number; every
element is reduced mod 256 as a byte. -/
def leBytesToNat : List Nat → Nat
  | [] => 0
  | b :: rest => b % 256 + 256 * leBytesToNat rest

/-- Decode eight little-endian bytes as a two's-complement i64. -/
def leBytesToInt64 (l : List Nat) : Int :=
  let n := leBytesToNat l
  if n < 2 ^ 63 then (n : Int) else (n : Int) - 2 ^ 64

/-- Encode a u16 as two little-endian bytes (`u16::to_le_bytes`). -/
def u16ToLe (n : Nat) : List Nat := [n % 256, n / 256 % 256]

/-- Check whether an `Except` value is an error. -/
def isErr {ε α : Type} : Except ε α → Bool
  | .error _ => true
  | .ok _ => false

/-- Pool configuration record (state/state.rs, `Config`).  `fee` is
kept as its two-byte little-endian representation exactly as stored;
the four bumps are single bytes. -/
structure Config where
  state : Nat
  seed : List Nat
  authority : Pubkey
  mint_x : Pubkey
  mint_y : Pubkey
  fee : List Nat
  config_bump : Nat
  vault_x_bump : Nat
  vault_y_bump : Nat
  mint_lp_bump : Nat
  deriving DecidableEq, Repr

/-- Pool state enumeration (state/state.rs, `AmmState`). -/
inductive AmmState where
  | Initialized
  | Disabled
  | WithdrawOnly
  deriving DecidableEq, Repr

/-- Discriminant values of `AmmState` (`Initialized = 1`,
`Disabled = 2`, `WithdrawOnly = 3`). -/
def AmmState.toU8 : AmmState → Nat
  | .Initialized => 1
  | .Disabled => 2
  | .WithdrawOnly => 3

/-- Fee accessor: `u16::from_le_bytes` of the stored bytes. -/
def Config.feeVal (c : Config) : Nat := leBytesToNat c.fee

/-- Deposit gate (state/state.rs `can_deposit`): state must equal
`Initialized`. -/
def Config.can_deposit (c : Config) : Bool :=
  c.state == AmmState.toU8 .Initialized

/-- Withdraw gate (state/state.rs `can_withdraw`): state must equal
`Initialized` or `WithdrawOnly`. -/
def Config.can_withdraw (c : Config) : Bool :=
  c.state == AmmState.toU8 .Initialized || c.state == AmmState.toU8 .WithdrawOnly

/-- Swap gate (state/state.rs `can_swap`): state must equal
`Initialized`. -/
def Config.can_swap (c : Config) : Bool :=
  c.state == AmmState.toU8 .Initialized

/-- Setter for `state` (state/state.rs `set_state`): rejects any byte
greater than or equal to `AmmState::WithdrawOnly as u8` (= 3). -/
def Config.set_state (c : Config) (s : Nat) : Except ProgramError Config :=
  if AmmState.toU8 .WithdrawOnly ≤ s then .error .InvalidAccountData
  else .ok { c with state := s }

/-- Setter for `fee` (state/state.rs `set_fee`): rejects any fee
greater than or equal to 10 000 basis points, otherwise stores the
little-endian encoding. -/
def Config.set_fee (c : Config) (fee : Nat) : Except ProgramError Config :=
  if 10000 ≤ fee then .error .InvalidAccountData
  else .ok { c with fee := u16ToLe fee }

/-- Combined field writer (state/state.rs `set_inner`): `set_state`
first, then the plain setters, then `set_fee`, then the four bumps. -/
def Config.set_inner (c : Config) (st : AmmState) (seed : List Nat)
    (authority mint_x mint_y : Pubkey) (fee : Nat)
    (config_bump vault_x_bump vault_y_bump mint_lp_bump : Nat) :
    Except ProgramError Config :=
  match c.set_state st.toU8 with
  | .error e => .error e
  | .ok c1 =>
    let c2 := { c1 with seed := seed, authority := authority,
                        mint_x := mint_x, mint_y := mint_y }
    match c2.set_fee fee with
    | .error e => .error e
    | .ok c3 =>
      .ok { c3 with config_bump := config_bump, vault_x_bump := vault_x_bump,
                    vault_y_bump := vault_y_bump, mint_lp_bump := mint_lp_bump }

/-- Modelled from the spec: the host's program-address derivation
(`create_program_address`, section 4.1) is not part of this
repository; it is carried abstractly as a function from a seed list
and a program id to an optional address (`none` models an on-curve /
failed derivation).  `crateID` and `ataID` stand for the AMM program
id and the associated-token program id; `now` is the clock sysvar's
`unix_timestamp`. -/
structure Env where
  derive : List (List Nat) → Pubkey → Option Pubkey
  crateID : Pubkey
  ataID : Pubkey
  now : Int

/-- Live pool balances read from the vault token accounts and the LP
mint supply at call time. -/
structure PoolView where
  lpSupply : Nat
  vaultXAmount : Nat
  vaultYAmount : Nat
  deriving DecidableEq, Repr

/-- Byte string `b"mint_lp"`. -/
def mintLpSeed : List Nat := [109, 105, 110, 116, 95, 108, 112]

/-- Deposit payload (deposit.rs `DepositInstructionData`). -/
structure DepositInstructionData where
  amount : Nat
  max_x : Nat
  max_y : Nat
  expiration : Int
  deriving DecidableEq, Repr

/-- Withdraw payload (withdraw.rs `WithdrawInstructionData`). -/
structure WithdrawInstructionData where
  amount : Nat
  min_x : Nat
  min_y : Nat
  expiration : Int
  deriving DecidableEq, Repr

/-- Swap payload (swap.rs `SwapInstructionData`). -/
structure SwapInstructionData where
  is_x : Bool
  amount : Nat
  min : Nat
  expiration : Int
  deriving DecidableEq, Repr

/-- Deposit payload parsing (deposit.rs `TryFrom<&[u8]>`): exact
32-byte length, all of `amount`, `max_x`, `max_y` nonzero, and the
clock's `unix_timestamp` strictly before `expiration`. -/
def DepositInstructionData.tryFrom (data : List Nat) (now : Int) :
    Except ProgramError DepositInstructionData :=
  if data.length ≠ 32 then .error .InvalidInstructionData
  else
    let amount := leBytesToNat (data.take 8)
    let maxX := leBytesToNat ((data.drop 8).take 8)
    let maxY := leBytesToNat ((data.drop 16).take 8)
    let expiration := leBytesToInt64 ((data.drop 24).take 8)
    if amount = 0 ∨ maxX = 0 ∨ maxY = 0 then .error .InvalidInstructionData
    else if expiration ≤ now then .error .InvalidArgument
    else .ok ⟨amount, maxX, maxY, expiration⟩

/-- Withdraw payload parsing (withdraw.rs `TryFrom<&[u8]>`): exact
32-byte length, all of `amount`, `min_x`, `min_y` nonzero, and
`expiration` strictly after the clock's `unix_timestamp`. -/
def WithdrawInstructionData.tryFrom (data : List Nat) (now : Int) :
    Except ProgramError WithdrawInstructionData :=
  if data.length ≠ 32 then .error .InvalidInstructionData
  else
    let amount := leBytesToNat (data.take 8)
    let minX := leBytesToNat ((data.drop 8).take 8)
    let minY := leBytesToNat ((data.drop 16).take 8)
    let expiration := leBytesToInt64 ((data.drop 24).take 8)
    if amount = 0 ∨ minX = 0 ∨ minY = 0 then .error .InvalidInstructionData
    else if expiration ≤ now then .error .InvalidArgument
    else .ok ⟨amount, minX, minY, expiration⟩

/-- Swap payload parsing (swap.rs `TryFrom<&[u8]>`): exact 25-byte
length, leading direction byte restricted to 0 or 1, `amount` and
`min` nonzero, and `expiration` strictly after the clock's
`unix_timestamp`. -/
def SwapInstructionData.tryFrom (data : List Nat) (now : Int) :
    Except ProgramError SwapInstructionData :=
  if data.length ≠ 25 then .error .InvalidInstructionData
  else
    let b0 := leBytesToNat (data.take 1)
    if 2 ≤ b0 then .error .InvalidInstructionData
    else
      let amount := leBytesToNat ((data.drop 1).take 8)
      let minOut := leBytesToNat ((data.drop 9).take 8)
      let expiration := leBytesToInt64 ((data.drop 17).take 8)
      if amount = 0 ∨ minOut = 0 then .error .InvalidInstructionData
      else if expiration ≤ now then .error .InvalidArgument
      else .ok ⟨b0 = 1, amount, minOut, expiration⟩

/-- Modelled from the spec: `xy_deposit_amounts_from_l` of the
external `constant_product_curve` crate (section 4.2,
`deposit_amounts`): for a nonzero LP supply, x and y are the
proportional shares `reserve * requested / lp_supply`; a zero LP
supply is a division-by-zero domain error.  The `decimals` precision
parameter is retained for shape. -/
def xyDepositAmountsFromL (rx ry lpSupply requested _decimals : Nat) :
    Except CurveError (Nat × Nat) :=
  if lpSupply = 0 then .error .ZeroBalance
  else .ok (rx * requested / lpSupply, ry * requested / lpSupply)

/-- Modelled from the spec: `xy_withdraw_amounts_from_l` of the
external `constant_product_curve` crate (section 4.2,
`withdraw_amounts`): proportional shares `reserve * burn / lp_supply`;
a zero LP supply is a division-by-zero domain error. -/
def xyWithdrawAmountsFromL (rx ry lpSupply burn _decimals : Nat) :
    Except CurveError (Nat × Nat) :=
  if lpSupply = 0 then .error .ZeroBalance
  else .ok (rx * burn / lpSupply, ry * burn / lpSupply)

/-- Modelled from the spec: the fee-and-solve core of the external
curve's `swap` (section 4.2): apply the basis-point fee to the input,
then solve `(reserve_in + deposit_net) * (reserve_out - withdraw) =
reserve_in * reserve_out` for the withdraw amount; zero reserves or a
zero input are a domain error. -/
def curveSwapRaw (rin rout feeBps amountIn : Nat) :
    Except CurveError (Nat × Nat) :=
  if rin = 0 ∨ rout = 0 ∨ amountIn = 0 then .error .ZeroBalance
  else
    let depositNet := amountIn * (10000 - feeBps) / 10000
    let withdrawAmt := rout - rin * rout / (rin + depositNet)
    .ok (depositNet, withdrawAmt)

/-- Modelled from the spec: the external curve's `swap` (section 4.2)
fails with a slippage error when the computed withdraw amount is below
the caller's minimum. -/
def curveSwap (rin rout feeBps amountIn minOut : Nat) :
    Except CurveError (Nat × Nat) :=
  match curveSwapRaw rin rout feeBps amountIn with
  | .error e => .error e
  | .ok r => if r.2 < minOut then .error .SlippageLimitExceeded else .ok r

/-- Addresses of the nine accounts of a Deposit (deposit.rs
`DepositAccounts`). -/
structure DepositAccounts where
  user : Pubkey
  mintLp : Pubkey
  vaultX : Pubkey
  vaultY : Pubkey
  userXAta : Pubkey
  userYAta : Pubkey
  userLpAta : Pubkey
  config : Pubkey
  tokenProgram : Pubkey
  deriving DecidableEq, Repr

/-- Addresses of the nine accounts of a Withdraw (withdraw.rs
`WithdrawAccounts`; same shape as Deposit). -/
structure WithdrawAccounts where
  user : Pubkey
  mintLp : Pubkey
  vaultX : Pubkey
  vaultY : Pubkey
  userXAta : Pubkey
  userYAta : Pubkey
  userLpAta : Pubkey
  config : Pubkey
  tokenProgram : Pubkey
  deriving DecidableEq, Repr

/-- Addresses of the seven accounts of a Swap (swap.rs
`SwapAccounts`). -/
structure SwapAccounts where
  user : Pubkey
  userXAta : Pubkey
  userYAta : Pubkey
  vaultX : Pubkey
  vaultY : Pubkey
  config : Pubkey
  tokenProgram : Pubkey
  deriving DecidableEq, Repr

/-- Roles of the accounts appearing in token instructions, used to
record the fund-movement phase as data. -/
inductive AccountRef where
  | user
  | mintLp
  | vaultX
  | vaultY
  | userXAta
  | userYAta
  | userLpAta
  | config
  deriving DecidableEq, Repr

/-- Token-program invocations issued during the execute phase. -/
inductive TokenInstr where
  | transfer (source dest auth : AccountRef) (amount : Nat)
  | mintTo (mint acct auth : AccountRef) (amount : Nat)
  | burn (mint acct auth : AccountRef) (amount : Nat)
  deriving DecidableEq, Repr

/-- Validation phase of Deposit (deposit.rs `Deposit::check`):
state gate, the two vault-address derivations, the LP-mint derivation
with the cached `mint_lp_bump`, the first-deposit branch, and the
slippage ceiling. -/
def Deposit.check (env : Env) (cfg : Config) (acc : DepositAccounts)
    (view : PoolView) (d : DepositInstructionData) :
    Except ProgramError (Nat × Nat) :=
  if !cfg.can_deposit then .error .InvalidAccountData
  else match env.derive [acc.config, acc.tokenProgram, cfg.mint_x, [cfg.vault_x_bump]] env.ataID with
  | none => .error .InvalidAccountData
  | some vx =>
    if vx ≠ acc.vaultX then .error .InvalidAccountData
    else match env.derive [acc.config, acc.tokenProgram, cfg.mint_y, [cfg.vault_y_bump]] env.ataID with
    | none => .error .InvalidAccountData
    | some vy =>
      if vy ≠ acc.vaultY then .error .InvalidAccountData
      else match env.derive [mintLpSeed, acc.config, [cfg.mint_lp_bump]] env.crateID with
      | none => .error .InvalidAccountData
      | some ml =>
        if ml ≠ acc.mintLp then .error .InvalidAccountData
        else
          let amounts : Except ProgramError (Nat × Nat) :=
            if view.lpSupply = 0 ∧ view.vaultXAmount = 0 ∧ view.vaultYAmount = 0
            then .ok (d.max_x, d.max_y)
            else match xyDepositAmountsFromL view.vaultXAmount view.vaultYAmount
                        view.lpSupply d.amount 6 with
                 | .error _ => .error .InvalidArgument
                 | .ok p => .ok p
          match amounts with
          | .error e => .error e
          | .ok (x, y) =>
            if !(x ≤ d.max_x ∧ y ≤ d.max_y : Bool) then .error .InvalidArgument
            else .ok (x, y)

/-- Execute phase of Deposit (deposit.rs
`transfer_to_vault_and_mint_to_user`): transfer x and y into the
vaults authorized by the user, then mint the payload's `amount` of LP
tokens authorized by the config PDA. -/
def Deposit.effects (d : DepositInstructionData) (x y : Nat) : List TokenInstr :=
  [ .transfer .userXAta .vaultX .user x,
    .transfer .userYAta .vaultY .user y,
    .mintTo .mintLp .userLpAta .config d.amount ]

/-- Full Deposit pipeline (deposit.rs `process` after payload
parsing): parse, check, then the execute phase as data. -/
def Deposit.run (env : Env) (cfg : Config) (acc : DepositAccounts)
    (view : PoolView) (data : List Nat) :
    Except ProgramError (List TokenInstr) :=
  match DepositInstructionData.tryFrom data env.now with
  | .error e => .error e
  | .ok d =>
    match Deposit.check env cfg acc view d with
    | .error e => .error e
    | .ok (x, y) => .ok (Deposit.effects d x y)

/-- Withdrawal-amount computation of Withdraw (withdraw.rs
`Withdraw::check`, lines 166-179): when the LP supply equals the burn
amount the vault reserves are returned verbatim, otherwise the curve
engine computes the proportional amounts. -/
def Withdraw.computeAmounts (view : PoolView) (amount : Nat) :
    Except ProgramError (Nat × Nat) :=
  if view.lpSupply = amount then .ok (view.vaultXAmount, view.vaultYAmount)
  else match xyWithdrawAmountsFromL view.vaultXAmount view.vaultYAmount
              view.lpSupply amount 6 with
       | .error _ => .error .InvalidArgument
       | .ok p => .ok p

/-- Validation phase of Withdraw (withdraw.rs `Withdraw::check`):
state gate, the two vault-address derivations, the LP-mint derivation
which — exactly as written in the source — uses the cached
`config_bump` in the seed list, the amount computation, and the
slippage floor. -/
def Withdraw.check (env : Env) (cfg : Config) (acc : WithdrawAccounts)
    (view : PoolView) (w : WithdrawInstructionData) :
    Except ProgramError (Nat × Nat) :=
  if !cfg.can_withdraw then .error .InvalidAccountData
  else match env.derive [acc.config, acc.tokenProgram, cfg.mint_x, [cfg.vault_x_bump]] env.ataID with
  | none => .error .InvalidAccountData
  | some vx =>
    if vx ≠ acc.vaultX then .error .InvalidAccountData
    else match env.derive [acc.config, acc.tokenProgram, cfg.mint_y, [cfg.vault_y_bump]] env.ataID with
    | none => .error .InvalidAccountData
    | some vy =>
      if vy ≠ acc.vaultY then .error .InvalidAccountData
      else match env.derive [mintLpSeed, acc.config, [cfg.config_bump]] env.crateID with
      | none => .error .InvalidAccountData
      | some ml =>
        if ml ≠ acc.mintLp then .error .InvalidAccountData
        else match Withdraw.computeAmounts view w.amount with
        | .error e => .error e
        | .ok (x, y) =>
          if x < w.min_x ∨ y < w.min_y then .error .InvalidArgument
          else .ok (x, y)

/-- Execute phase of Withdraw (withdraw.rs
`transfer_tokens_and_burn_lp_tokens`): transfer x and y out of the
vaults authorized by the config PDA, then burn the payload's `amount`
of LP tokens authorized by the user. -/
def Withdraw.effects (w : WithdrawInstructionData) (x y : Nat) : List TokenInstr :=
  [ .transfer .vaultX .userXAta .config x,
    .transfer .vaultY .userYAta .config y,
    .burn .mintLp .userLpAta .user w.amount ]

/-- Full Withdraw pipeline (withdraw.rs `process` after payload
parsing). -/
def Withdraw.run (env : Env) (cfg : Config) (acc : WithdrawAccounts)
    (view : PoolView) (data : List Nat) :
    Except ProgramError (List TokenInstr) :=
  match WithdrawInstructionData.tryFrom data env.now with
  | .error e => .error e
  | .ok w =>
    match Withdraw.check env cfg acc view w with
    | .error e => .error e
    | .ok (x, y) => .ok (Withdraw.effects w x y)

/-- Input-side reserve of a swap: vault X when `is_x`, else vault Y. -/
def Swap.reserveIn (view : PoolView) (s : SwapInstructionData) : Nat :=
  if s.is_x then view.vaultXAmount else view.vaultYAmount

/-- Output-side reserve of a swap: vault Y when `is_x`, else vault X. -/
def Swap.reserveOut (view : PoolView) (s : SwapInstructionData) : Nat :=
  if s.is_x then view.vaultYAmount else view.vaultXAmount

/-- Curve stage of Swap (swap.rs `Swap::check`, lines 152-170): run
the curve's swap on the live reserves — any curve failure, slippage
included, becomes `InvalidArgument` — then reject a zero deposit or a
zero withdraw with `InvalidArgument`. -/
def Swap.compute (cfg : Config) (view : PoolView) (s : SwapInstructionData) :
    Except ProgramError (Nat × Nat) :=
  match curveSwap (Swap.reserveIn view s) (Swap.reserveOut view s)
          cfg.feeVal s.amount s.min with
  | .error _ => .error .InvalidArgument
  | .ok r =>
    if r.1 = 0 ∨ r.2 = 0 then .error .InvalidArgument
    else .ok r

/-- Validation phase of Swap (swap.rs `Swap::check`): state gate, the
two vault-address derivations, then the curve stage. -/
def Swap.check (env : Env) (cfg : Config) (acc : SwapAccounts)
    (view : PoolView) (s : SwapInstructionData) :
    Except ProgramError (Nat × Nat) :=
  if !cfg.can_swap then .error .InvalidAccountData
  else match env.derive [acc.config, acc.tokenProgram, cfg.mint_x, [cfg.vault_x_bump]] env.ataID with
  | none => .error .InvalidAccountData
  | some vx =>
    if vx ≠ acc.vaultX then .error .InvalidAccountData
    else match env.derive [acc.config, acc.tokenProgram, cfg.mint_y, [cfg.vault_y_bump]] env.ataID with
    | none => .error .InvalidAccountData
    | some vy =>
      if vy ≠ acc.vaultY then .error .InvalidAccountData
      else Swap.compute cfg view s

/-- Execute phase of Swap (swap.rs `transfer`): deposit the input
asset from the user (user-authorized) and withdraw the output asset
from the opposite vault (config-PDA-authorized). -/
def Swap.effects (s : SwapInstructionData) (dep wd : Nat) : List TokenInstr :=
  if s.is_x then
    [ .transfer .userXAta .vaultX .user dep,
      .transfer .vaultY .userYAta .config wd ]
  else
    [ .transfer .userYAta .vaultY .user dep,
      .transfer .vaultX .userXAta .config wd ]

/-- Full Swap pipeline (swap.rs `process` after payload parsing). -/
def Swap.run (env : Env) (cfg : Config) (acc : SwapAccounts)
    (view : PoolView) (data : List Nat) :
    Except ProgramError (List TokenInstr) :=
  match SwapInstructionData.tryFrom data env.now with
  | .error e => .error e
  | .ok s =>
    match Swap.check env cfg acc view s with
    | .error e => .error e
    | .ok (dep, wd) => .ok (Swap.effects s dep wd)

/-- Payload of the pool-creation instruction
(initialize.rs `InitializeInstructionData`), with the fee as a u16
value. -/
structure InitData where
  seed : List Nat
  fee : Nat
  mint_x : Pubkey
  mint_y : Pubkey
  authority : Pubkey
  deriving DecidableEq, Repr

/-- Config-writing step of pool creation (initialize.rs `process`,
lines 212-227): `set_inner` with `AmmState::Initialized`, the payload
fields and the four freshly derived bumps. -/
def initSetConfig (c : Config) (d : InitData)
    (config_bump vault_x_bump vault_y_bump mint_lp_bump : Nat) :
    Except ProgramError Config :=
  c.set_inner .Initialized d.seed d.authority d.mint_x d.mint_y d.fee
    config_bump vault_x_bump vault_y_bump mint_lp_bump

/-!
Concrete instances used for counterexamples and witnesses.
-/

/-- Concrete derivation function for witnesses: the program id
followed by the concatenated seeds, so distinct seed lists under one
program id give distinct addresses. -/
def demoDerive : List (List Nat) → Pubkey → Option Pubkey :=
  fun seeds pid => some (pid ++ seeds.foldr (fun a b => a ++ b) [])

/-- Concrete environment: `demoDerive`, program id `[1]`,
associated-token program id `[2]`, clock at 0. -/
def demoEnv : Env := ⟨demoDerive, [1], [2], 0⟩

/-- Concrete pool configuration in the `Initialized` state whose
`config_bump` (3) differs from its `mint_lp_bump` (7). -/
def demoCfg : Config :=
  { state := 1, seed := [0, 0, 0, 0, 0, 0, 0, 0], authority := [0],
    mint_x := [11], mint_y := [12], fee := [30, 0],
    config_bump := 3, vault_x_bump := 4, vault_y_bump := 5, mint_lp_bump := 7 }

/-- The same pool configuration in the `Disabled` state. -/
def cfgDisabled : Config := { demoCfg with state := 2 }

/-- Empty pool balances (fresh pool). -/
def demoView0 : PoolView := ⟨0, 0, 0⟩

/-- Funded pool balances: LP supply 5, reserves 10 and 20. -/
def demoView5 : PoolView := ⟨5, 10, 20⟩

/-- Deposit accounts whose vault and mint addresses match the
derivations `demoDerive` produces for `demoCfg`; the LP mint is the
one derived with the cached `mint_lp_bump`. -/
def demoDepAcc : DepositAccounts :=
  { user := [0], mintLp := 1 :: mintLpSeed ++ [9, 7],
    vaultX := [2, 9, 8, 11, 4], vaultY := [2, 9, 8, 12, 5],
    userXAta := [0], userYAta := [0], userLpAta := [0],
    config := [9], tokenProgram := [8] }

/-- Withdraw accounts supplying the legitimate LP mint — the address
derived with the cached `mint_lp_bump`, the one Deposit accepts. -/
def wdAccMintBump : WithdrawAccounts :=
  { user := [0], mintLp := 1 :: mintLpSeed ++ [9, 7],
    vaultX := [2, 9, 8, 11, 4], vaultY := [2, 9, 8, 12, 5],
    userXAta := [0], userYAta := [0], userLpAta := [0],
    config := [9], tokenProgram := [8] }

/-- Withdraw accounts supplying the address derived with the cached
`config_bump` instead — not the LP mint address the claim designates
as legitimate. -/
def wdAccConfigBump : WithdrawAccounts :=
  { user := [0], mintLp := 1 :: mintLpSeed ++ [9, 3],
    vaultX := [2, 9, 8, 11, 4], vaultY := [2, 9, 8, 12, 5],
    userXAta := [0], userYAta := [0], userLpAta := [0],
    config := [9], tokenProgram := [8] }

/-- Swap accounts matching the demo derivations. -/
def demoSwapAcc : SwapAccounts :=
  { user := [0], userXAta := [0], userYAta := [0],
    vaultX := [2, 9, 8, 11, 4], vaultY := [2, 9, 8, 12, 5],
    config := [9], tokenProgram := [8] }

/-- First deposit asking for 1 LP token with ceilings 5 and 7. -/
def demoDep : DepositInstructionData := ⟨1, 5, 7, 100⟩

/-- Withdraw burning the whole LP supply of `demoView5`. -/
def demoWd : WithdrawInstructionData := ⟨5, 1, 1, 100⟩

/-- Swap of 4 units of X with minimum output 1. -/
def demoSwap : SwapInstructionData := ⟨true, 4, 1, 100⟩

/-- Balanced reserves of 1000 on both sides. -/
def swapView : PoolView := ⟨0, 1000, 1000⟩

/-- The demo pool with a 9999-basis-point fee. -/
def cfgHighFee : Config := { demoCfg with fee := [15, 39] }

/-- Pool-creation payload with fee 9999 (in range). -/
def initDataOk : InitData := ⟨[0, 0, 0, 0, 0, 0, 0, 0], 9999, [11], [12], [0]⟩

/-- Pool-creation payload with fee 10000 (out of range). -/
def initDataHigh : InitData := ⟨[0, 0, 0, 0, 0, 0, 0, 0], 10000, [11], [12], [0]⟩

/-!
Claim theorems.
-/

/-- C4: the claim says `Config::set_state` succeeds exactly on the
three `AmmState` values 1, 2, 3.  The code's guard `state >=
WithdrawOnly as u8` instead rejects 3 — the very value
`can_withdraw` treats as a live state — and accepts the byte 0,
which is no `AmmState` value at all. -/
theorem set_state_boundary_bug :
    Config.set_state demoCfg 3 = .error .InvalidAccountData ∧
    AmmState.toU8 .WithdrawOnly = 3 ∧
    Config.can_withdraw { demoCfg with state := 3 } = true ∧
    Config.set_state demoCfg 0 = .ok { demoCfg with state := 0 } := by
  refine ⟨?_, rfl, rfl, ?_⟩ <;> simp [Config.set_state, AmmState.toU8]

/-- C5: when the burn amount equals the live LP supply, Withdraw's
amount computation returns the two vault reserves verbatim, without
consulting the curve engine. -/
theorem withdraw_full_burn_returns_reserves (view : PoolView) (amount : Nat)
    (h : view.lpSupply = amount) :
    Withdraw.computeAmounts view amount =
      .ok (view.vaultXAmount, view.vaultYAmount) := by
  unfold Withdraw.computeAmounts
  simp [h]

/-- Witness for C5 at the concrete funded pool: burning all 5 LP
tokens returns the reserves (10, 20). -/
theorem withdraw_full_burn_returns_reserves_witness :
    Withdraw.computeAmounts demoView5 5 = .ok (10, 20) :=
  withdraw_full_burn_returns_reserves demoView5 5 rfl

/-- C10: a Swap payload whose `min` field is zero is rejected during
parsing with `InvalidInstructionData`, for every well-sized payload
and every clock value. -/
theorem swap_zero_min_rejected (data : List Nat) (now : Int)
    (h25 : data.length = 25)
    (h0 : leBytesToNat ((data.drop 9).take 8) = 0) :
    SwapInstructionData.tryFrom data now = .error .InvalidInstructionData := by
  unfold SwapInstructionData.tryFrom
  rcases le_or_lt 2 (leBytesToNat (data.take 1)) with hb | hb
  · simp [h25, hb]
  · simp [h25, h0, Nat.not_le.mpr hb]

/-- Witness for C10: the all-zero 25-byte payload is rejected. -/
theorem swap_zero_min_rejected_witness :
    SwapInstructionData.tryFrom (List.replicate 25 0) 0 =
      .error .InvalidInstructionData :=
  swap_zero_min_rejected (List.replicate 25 0) 0 (by decide) (by decide)

/-- Helper: Deposit validation can only fail at the state gate with
`InvalidAccountData` when `can_deposit` is false. -/
theorem deposit_check_state_err (env : Env) (cfg : Config)
    (acc : DepositAccounts) (view : PoolView) (d : DepositInstructionData)
    (h : cfg.can_deposit = false) :
    Deposit.check env cfg acc view d = .error .InvalidAccountData := by
  unfold Deposit.check
  simp [h]

/-- Helper: Withdraw validation fails at the state gate when
`can_withdraw` is false. -/
theorem withdraw_check_state_err (env : Env) (cfg : Config)
    (acc : WithdrawAccounts) (view : PoolView) (w : WithdrawInstructionData)
    (h : cfg.can_withdraw = false) :
    Withdraw.check env cfg acc view w = .error .InvalidAccountData := by
  unfold Withdraw.check
  simp [h]

/-- Helper: Swap validation fails at the state gate when `can_swap`
is false. -/
theorem swap_check_state_err (env : Env) (cfg : Config)
    (acc : SwapAccounts) (view : PoolView) (s : SwapInstructionData)
    (h : cfg.can_swap = false) :
    Swap.check env cfg acc view s = .error .InvalidAccountData := by
  unfold Swap.check
  simp [h]

/-- C2: on a pool with zero LP supply and empty vaults, a successful
Deposit validation returns the caller's ceilings `(max_x, max_y)`
verbatim, and the execute phase mints exactly the payload's `amount`
of LP tokens. -/
theorem deposit_first_deposit_takes_maximums
    (env : Env) (cfg : Config) (acc : DepositAccounts) (view : PoolView)
    (d : DepositInstructionData) (x y : Nat)
    (hs : view.lpSupply = 0) (hx : view.vaultXAmount = 0)
    (hy : view.vaultYAmount = 0)
    (hok : Deposit.check env cfg acc view d = .ok (x, y)) :
    x = d.max_x ∧ y = d.max_y ∧
      TokenInstr.mintTo .mintLp .userLpAta .config d.amount ∈
        Deposit.effects d x y := by
  unfold Deposit.check at hok
  rw [hs, hx, hy] at hok
  simp only [and_self, if_true] at hok
  repeat' split at hok
  all_goals simp_all [Deposit.effects]

/-- Witness for C2: the concrete fresh pool accepts the first deposit
with ceilings (5, 7) verbatim and mints the requested 1 LP token. -/
theorem deposit_first_deposit_takes_maximums_witness :
    (5 : Nat) = demoDep.max_x ∧ (7 : Nat) = demoDep.max_y ∧
      TokenInstr.mintTo .mintLp .userLpAta .config demoDep.amount ∈
        Deposit.effects demoDep 5 7 :=
  deposit_first_deposit_takes_maximums demoEnv demoCfg demoDepAcc demoView0
    demoDep 5 7 rfl rfl rfl rfl

/-- C3: Deposit validation succeeds only in state `Initialized` (1),
Withdraw only in `Initialized` or `WithdrawOnly` (1 or 3), Swap only
in `Initialized`; and in state `Disabled` (2) all three validations
fail with the state error, so the full pipelines error before any
fund movement. -/
theorem pool_state_gates_operations
    (env : Env) (cfg : Config) (da : DepositAccounts) (wa : WithdrawAccounts)
    (sa : SwapAccounts) (view : PoolView) (d : DepositInstructionData)
    (w : WithdrawInstructionData) (s : SwapInstructionData)
    (dd wd sd : List Nat) :
    (∀ r, Deposit.check env cfg da view d = .ok r → cfg.state = 1) ∧
    (∀ r, Withdraw.check env cfg wa view w = .ok r →
      cfg.state = 1 ∨ cfg.state = 3) ∧
    (∀ r, Swap.check env cfg sa view s = .ok r → cfg.state = 1) ∧
    (cfg.state = 2 →
      Deposit.check env cfg da view d = .error .InvalidAccountData ∧
      Withdraw.check env cfg wa view w = .error .InvalidAccountData ∧
      Swap.check env cfg sa view s = .error .InvalidAccountData ∧
      isErr (Deposit.run env cfg da view dd) = true ∧
      isErr (Withdraw.run env cfg wa view wd) = true ∧
      isErr (Swap.run env cfg sa view sd) = true) := by
  refine ⟨?_, ?_, ?_, ?_⟩
  · intro r h
    by_contra hne
    rw [deposit_check_state_err env cfg da view d
      (by simp [Config.can_deposit, AmmState.toU8, hne])] at h
    cases h
  · intro r h
    by_contra hne
    push_neg at hne
    rw [withdraw_check_state_err env cfg wa view w
      (by simp [Config.can_withdraw, AmmState.toU8, hne.1, hne.2])] at h
    cases h
  · intro r h
    by_contra hne
    rw [swap_check_state_err env cfg sa view s
      (by simp [Config.can_swap, AmmState.toU8, hne])] at h
    cases h
  · intro h2
    have hd : cfg.can_deposit = false := by
      simp [Config.can_deposit, AmmState.toU8, h2]
    have hw : cfg.can_withdraw = false := by
      simp [Config.can_withdraw, AmmState.toU8, h2]
    have hs : cfg.can_swap = false := by
      simp [Config.can_swap, AmmState.toU8, h2]
    refine ⟨deposit_check_state_err env cfg da view d hd,
            withdraw_check_state_err env cfg wa view w hw,
            swap_check_state_err env cfg sa view s hs, ?_, ?_, ?_⟩
    · unfold Deposit.run
      cases htf : DepositInstructionData.tryFrom dd env.now with
      | error e => simp [isErr]
      | ok d2 => simp [isErr, deposit_check_state_err env cfg da view d2 hd]
    · unfold Withdraw.run
      cases htf : WithdrawInstructionData.tryFrom wd env.now with
      | error e => simp [isErr]
      | ok w2 => simp [isErr, withdraw_check_state_err env cfg wa view w2 hw]
    · unfold Swap.run
      cases htf : SwapInstructionData.tryFrom sd env.now with
      | error e => simp [isErr]
      | ok s2 => simp [isErr, swap_check_state_err env cfg sa view s2 hs]

/-- C1: the claim says Withdraw accepts a supplied LP mint exactly
when its address equals the derivation from `("mint_lp", config key)`
plus the cached `mint_lp_bump` — the same check Deposit performs.  On
a pool whose `config_bump` (3) differs from its `mint_lp_bump` (7),
the code disagrees: the mint address derived with the `mint_lp_bump`
— which Deposit accepts — is rejected by Withdraw, while Withdraw
accepts the address derived with the `config_bump`, whose address is
not the one the claim designates.  The cause is withdraw.rs using
`config.config_bump()` in the LP-mint seed list. -/
theorem withdraw_mint_lp_uses_config_bump :
    demoCfg.mint_lp_bump ≠ demoCfg.config_bump ∧
    demoEnv.derive [mintLpSeed, demoDepAcc.config, [demoCfg.mint_lp_bump]]
        demoEnv.crateID = some demoDepAcc.mintLp ∧
    Deposit.check demoEnv demoCfg demoDepAcc demoView0 demoDep = .ok (5, 7) ∧
    wdAccMintBump.mintLp = demoDepAcc.mintLp ∧
    Withdraw.check demoEnv demoCfg wdAccMintBump demoView5 demoWd =
      .error .InvalidAccountData ∧
    Withdraw.check demoEnv demoCfg wdAccConfigBump demoView5 demoWd =
      .ok (10, 20) ∧
    demoEnv.derive [mintLpSeed, wdAccConfigBump.config, [demoCfg.mint_lp_bump]]
        demoEnv.crateID ≠ some wdAccConfigBump.mintLp :=
  ⟨by decide, rfl, rfl, rfl, rfl, rfl, by decide⟩

/-- Witness for C3: in the `Disabled` pool all three validations fail
with the state error, while successful runs pin the state to the
permitted values. -/
theorem pool_state_gates_operations_witness :
    Deposit.check demoEnv cfgDisabled demoDepAcc demoView5 demoDep =
      .error .InvalidAccountData ∧
    Withdraw.check demoEnv cfgDisabled wdAccConfigBump demoView5 demoWd =
      .error .InvalidAccountData ∧
    Swap.check demoEnv cfgDisabled demoSwapAcc demoView5 demoSwap =
      .error .InvalidAccountData ∧
    demoCfg.state = 1 ∧ (demoCfg.state = 1 ∨ demoCfg.state = 3) := by
  have hdis := pool_state_gates_operations demoEnv cfgDisabled demoDepAcc
    wdAccConfigBump demoSwapAcc demoView5 demoDep demoWd demoSwap [] [] []
  have hok0 := pool_state_gates_operations demoEnv demoCfg demoDepAcc
    wdAccConfigBump demoSwapAcc demoView0 demoDep demoWd demoSwap [] [] []
  have hok5 := pool_state_gates_operations demoEnv demoCfg demoDepAcc
    wdAccConfigBump demoSwapAcc demoView5 demoDep demoWd demoSwap [] [] []
  exact ⟨(hdis.2.2.2 rfl).1, (hdis.2.2.2 rfl).2.1, (hdis.2.2.2 rfl).2.2.1,
         hok0.1 (5, 7) rfl, hok5.2.1 (10, 20) rfl⟩

/-- C6: Swap's curve stage fails with `InvalidArgument` whenever the
curve-computed withdraw amount is below the caller's minimum, and
whenever the curve produces a zero deposit or a zero withdraw. -/
theorem swap_rejects_min_violation_and_zero_outputs
    (cfg : Config) (view : PoolView) (s : SwapInstructionData) :
    (∀ dep wd, curveSwapRaw (Swap.reserveIn view s) (Swap.reserveOut view s)
        cfg.feeVal s.amount = .ok (dep, wd) → wd < s.min →
      Swap.compute cfg view s = .error .InvalidArgument) ∧
    (∀ dep wd, curveSwap (Swap.reserveIn view s) (Swap.reserveOut view s)
        cfg.feeVal s.amount s.min = .ok (dep, wd) → dep = 0 ∨ wd = 0 →
      Swap.compute cfg view s = .error .InvalidArgument) := by
  constructor
  · intro dep wd hraw hlt
    unfold Swap.compute curveSwap
    rw [hraw]
    simp [hlt]
  · intro dep wd hok hzero
    unfold Swap.compute
    rw [hok]
    rcases hzero with h | h <;> simp [h]

/-- Witness for C6: with reserves 1000/1000 and a 30-bps fee, a
100-unit swap computes withdraw 91, so a minimum of 1000 is rejected;
with a 9999-bps fee a 1-unit swap computes outputs (0, 0), rejected
as zero. -/
theorem swap_rejects_min_violation_and_zero_outputs_witness :
    Swap.compute demoCfg swapView ⟨true, 100, 1000, 100⟩ =
      .error .InvalidArgument ∧
    Swap.compute cfgHighFee swapView ⟨true, 1, 0, 100⟩ =
      .error .InvalidArgument :=
  ⟨(swap_rejects_min_violation_and_zero_outputs demoCfg swapView
      ⟨true, 100, 1000, 100⟩).1 99 91 rfl (by decide),
   (swap_rejects_min_violation_and_zero_outputs cfgHighFee swapView
      ⟨true, 1, 0, 100⟩).2 0 0 rfl (Or.inl rfl)⟩

/-- C7: the config-writing step of pool creation rejects any fee of
10 000 basis points or more with an error, and for any in-range fee
the stored configuration reads back exactly the supplied fee. -/
theorem init_fee_range_enforced (c : Config) (d : InitData)
    (cb vxb vyb mlb : Nat) (hu : d.fee < 65536) :
    (10000 ≤ d.fee →
      initSetConfig c d cb vxb vyb mlb = .error .InvalidAccountData) ∧
    (d.fee < 10000 →
      ∃ c2, initSetConfig c d cb vxb vyb mlb = .ok c2 ∧ c2.feeVal = d.fee) := by
  constructor
  · intro h
    unfold initSetConfig Config.set_inner Config.set_state Config.set_fee
    simp [AmmState.toU8, h]
  · intro h
    unfold initSetConfig Config.set_inner Config.set_state Config.set_fee
    simp only [AmmState.toU8, Nat.reduceLeDiff, if_false,
      Nat.not_le.mpr h, if_neg]
    refine ⟨_, rfl, ?_⟩
    simp [Config.feeVal, u16ToLe, leBytesToNat]
    omega

/-- Witness for C7: fee 10000 is rejected, fee 9999 is stored and
read back. -/
theorem init_fee_range_enforced_witness :
    initSetConfig demoCfg initDataHigh 1 2 3 4 = .error .InvalidAccountData ∧
    ∃ c2, initSetConfig demoCfg initDataOk 1 2 3 4 = .ok c2 ∧
      c2.feeVal = 9999 :=
  ⟨(init_fee_range_enforced demoCfg initDataHigh 1 2 3 4 (by decide)).1
      (by decide),
   (init_fee_range_enforced demoCfg initDataOk 1 2 3 4 (by decide)).2
      (by decide)⟩

/-- Helper: a Deposit parse error propagates to the full pipeline. -/
theorem deposit_run_err_of_parse (env : Env) (cfg : Config)
    (acc : DepositAccounts) (view : PoolView) (data : List Nat)
    (e : ProgramError)
    (h : DepositInstructionData.tryFrom data env.now = .error e) :
    Deposit.run env cfg acc view data = .error e := by
  unfold Deposit.run
  rw [h]

/-- Helper: a Withdraw parse error propagates to the full pipeline. -/
theorem withdraw_run_err_of_parse (env : Env) (cfg : Config)
    (acc : WithdrawAccounts) (view : PoolView) (data : List Nat)
    (e : ProgramError)
    (h : WithdrawInstructionData.tryFrom data env.now = .error e) :
    Withdraw.run env cfg acc view data = .error e := by
  unfold Withdraw.run
  rw [h]

/-- Helper: a Swap parse error propagates to the full pipeline. -/
theorem swap_run_err_of_parse (env : Env) (cfg : Config)
    (acc : SwapAccounts) (view : PoolView) (data : List Nat)
    (e : ProgramError)
    (h : SwapInstructionData.tryFrom data env.now = .error e) :
    Swap.run env cfg acc view data = .error e := by
  unfold Swap.run
  rw [h]

/-- C8: a zero `amount` in a Deposit, Withdraw, or Swap payload — and
for Deposit likewise a zero `max_x` or `max_y` — makes parsing fail
with `InvalidInstructionData`, and the full pipeline returns that
parse error, reaching neither validation nor the execute phase. -/
theorem zero_amount_rejected
    (env : Env) (cfg : Config) (da : DepositAccounts)
    (wa : WithdrawAccounts) (sa : SwapAccounts) (view : PoolView)
    (dd wd sd : List Nat) :
    (dd.length = 32 → leBytesToNat (dd.take 8) = 0 →
      DepositInstructionData.tryFrom dd env.now =
        .error .InvalidInstructionData ∧
      Deposit.run env cfg da view dd = .error .InvalidInstructionData) ∧
    (dd.length = 32 → leBytesToNat ((dd.drop 8).take 8) = 0 →
      Deposit.run env cfg da view dd = .error .InvalidInstructionData) ∧
    (dd.length = 32 → leBytesToNat ((dd.drop 16).take 8) = 0 →
      Deposit.run env cfg da view dd = .error .InvalidInstructionData) ∧
    (wd.length = 32 → leBytesToNat (wd.take 8) = 0 →
      WithdrawInstructionData.tryFrom wd env.now =
        .error .InvalidInstructionData ∧
      Withdraw.run env cfg wa view wd = .error .InvalidInstructionData) ∧
    (sd.length = 25 → leBytesToNat ((sd.drop 1).take 8) = 0 →
      SwapInstructionData.tryFrom sd env.now =
        .error .InvalidInstructionData ∧
      Swap.run env cfg sa view sd = .error .InvalidInstructionData) := by
  refine ⟨?_, ?_, ?_, ?_, ?_⟩ <;> intro hlen h0
  · have hp : DepositInstructionData.tryFrom dd env.now =
        .error .InvalidInstructionData := by
      unfold DepositInstructionData.tryFrom
      simp [hlen, h0]
    exact ⟨hp, deposit_run_err_of_parse env cfg da view dd _ hp⟩
  · refine deposit_run_err_of_parse env cfg da view dd _ ?_
    unfold DepositInstructionData.tryFrom
    simp [hlen, h0]
  · refine deposit_run_err_of_parse env cfg da view dd _ ?_
    unfold DepositInstructionData.tryFrom
    simp [hlen, h0]
  · have hp : WithdrawInstructionData.tryFrom wd env.now =
        .error .InvalidInstructionData := by
      unfold WithdrawInstructionData.tryFrom
      simp [hlen, h0]
    exact ⟨hp, withdraw_run_err_of_parse env cfg wa view wd _ hp⟩
  · have hp : SwapInstructionData.tryFrom sd env.now =
        .error .InvalidInstructionData := by
      unfold SwapInstructionData.tryFrom
      simp only [List.drop_one] at h0
      repeat' split
      all_goals simp_all
    exact ⟨hp, swap_run_err_of_parse env cfg sa view sd _ hp⟩

/-- Witness for C8: the all-zero payloads are rejected end to end. -/
theorem zero_amount_rejected_witness :
    Deposit.run demoEnv demoCfg demoDepAcc demoView0 (List.replicate 32 0) =
      .error .InvalidInstructionData ∧
    Withdraw.run demoEnv demoCfg wdAccConfigBump demoView5
        (List.replicate 32 0) = .error .InvalidInstructionData ∧
    Swap.run demoEnv demoCfg demoSwapAcc demoView5 (List.replicate 25 0) =
      .error .InvalidInstructionData := by
  have h := zero_amount_rejected demoEnv demoCfg demoDepAcc wdAccConfigBump
    demoSwapAcc demoView5 (List.replicate 32 0) (List.replicate 32 0)
    (List.replicate 25 0)
  exact ⟨(h.1 (by decide) (by decide)).2,
         (h.2.2.2.1 (by decide) (by decide)).2,
         (h.2.2.2.2 (by decide) (by decide)).2⟩

/-- C9: a payload whose `expiration` is not strictly after the
clock's timestamp makes Deposit, Withdraw, and Swap fail during
parsing, so the full pipeline errors before validation, curve
computation, or any transfer. -/
theorem expired_payload_rejected
    (env : Env) (cfg : Config) (da : DepositAccounts)
    (wa : WithdrawAccounts) (sa : SwapAccounts) (view : PoolView)
    (dd wd sd : List Nat) :
    (dd.length = 32 → leBytesToInt64 ((dd.drop 24).take 8) ≤ env.now →
      isErr (DepositInstructionData.tryFrom dd env.now) = true ∧
      isErr (Deposit.run env cfg da view dd) = true) ∧
    (wd.length = 32 → leBytesToInt64 ((wd.drop 24).take 8) ≤ env.now →
      isErr (WithdrawInstructionData.tryFrom wd env.now) = true ∧
      isErr (Withdraw.run env cfg wa view wd) = true) ∧
    (sd.length = 25 → leBytesToInt64 ((sd.drop 17).take 8) ≤ env.now →
      isErr (SwapInstructionData.tryFrom sd env.now) = true ∧
      isErr (Swap.run env cfg sa view sd) = true) := by
  refine ⟨?_, ?_, ?_⟩ <;> intro hlen hexp
  · have hp : isErr (DepositInstructionData.tryFrom dd env.now) = true := by
      unfold DepositInstructionData.tryFrom
      simp only [hlen]
      repeat' split
      all_goals simp_all [isErr]
    refine ⟨hp, ?_⟩
    unfold Deposit.run
    cases htf : DepositInstructionData.tryFrom dd env.now with
    | error e => simp [isErr]
    | ok d2 => rw [htf] at hp; simp [isErr] at hp
  · have hp : isErr (WithdrawInstructionData.tryFrom wd env.now) = true := by
      unfold WithdrawInstructionData.tryFrom
      simp only [hlen]
      repeat' split
      all_goals simp_all [isErr]
    refine ⟨hp, ?_⟩
    unfold Withdraw.run
    cases htf : WithdrawInstructionData.tryFrom wd env.now with
    | error e => simp [isErr]
    | ok w2 => rw [htf] at hp; simp [isErr] at hp
  · have hp : isErr (SwapInstructionData.tryFrom sd env.now) = true := by
      unfold SwapInstructionData.tryFrom
      simp only [hlen]
      repeat' split
      all_goals simp_all [isErr]
    refine ⟨hp, ?_⟩
    unfold Swap.run
    cases htf : SwapInstructionData.tryFrom sd env.now with
    | error e => simp [isErr]
    | ok s2 => rw [htf] at hp; simp [isErr] at hp

/-- Witness for C9: all-zero payloads decode expiration 0, which is
not after the clock at 0, so all three pipelines error. -/
theorem expired_payload_rejected_witness :
    isErr (Deposit.run demoEnv demoCfg demoDepAcc demoView0
      (List.replicate 32 0)) = true ∧
    isErr (Withdraw.run demoEnv demoCfg wdAccConfigBump demoView5
      (List.replicate 32 0)) = true ∧
    isErr (Swap.run demoEnv demoCfg demoSwapAcc demoView5
      (List.replicate 25 0)) = true := by
  have h := expired_payload_rejected demoEnv demoCfg demoDepAcc
    wdAccConfigBump demoSwapAcc demoView5 (List.replicate 32 0)
    (List.replicate 32 0) (List.replicate 25 0)
  exact ⟨(h.1 (by decide) (by decide)).2,
         (h.2.1 (by decide) (by decide)).2,
         (h.2.2 (by decide) (by decide)).2⟩

end Amm
